import Mathlib

/-!
Verification of the MKWiiRR room poller: a shallow embedding of
`core.py` (shared disk cache with TTL and exponential backoff, snapshot
normalizer) and `notifier.py` (room state tracker and watchlist matcher),
with theorems checking the natural-language specification against it.

Timestamps, TTLs and ratings are modelled as rationals; machine floats in
the source only carry small exact values at the points the spec speaks
about. Disk state (payload file, its mtime, the backoff file) is an
explicit record threaded through the cache routine; the outcome records
whether the network was consulted. Fallible JSON payloads are `Option`s.
-/

/-- What the network would answer if the coordinator issued the request:
a decoded payload, a 429 rate-limit response, or a request failure
(`requests.exceptions.RequestException`). -/
inductive FetchResult (P : Type) where
  | success (payload : P)
  | rateLimited
  | networkError
deriving DecidableEq, Repr

/-- The failure the cache routine re-raises when it has no cache to fall
back on. -/
inductive FetchFailure where
  | rateLimited
  | networkError
deriving DecidableEq, Repr

/-- Result of one cached-fetch call: a payload or a propagated failure. -/
inductive CResult (P : Type) where
  | payload (p : P)
  | err (e : FetchFailure)
deriving DecidableEq, Repr

/-- On-disk cache state for one key: the readable payload of the data
file (`none` when the file is missing or unreadable), the data file's
mtime (`0` when missing, as `_mtime` returns), and the recorded
backoff-until timestamp (`0` when the backoff file is absent or empty,
as `_read_backoff_until` returns). -/
structure CacheState (P : Type) where
  cache : Option P
  mtime : ℚ
  backoffUntil : ℚ
deriving DecidableEq, Repr

/-- Everything observable about one `_fetch_with_cache` call: the value
returned or error raised, the disk state afterwards, and whether
`requests.get` was invoked. -/
structure FetchOutcome (P : Type) where
  result : CResult P
  final : CacheState P
  usedNetwork : Bool
deriving DecidableEq, Repr

/-- `_BACKOFF_INITIAL_SECONDS` from `core.py`. -/
def BACKOFF_INITIAL_SECONDS : ℚ := 10

/-- `_BACKOFF_MAX_SECONDS` from `core.py`. -/
def BACKOFF_MAX_SECONDS : ℚ := 120

/-- The network section of `_fetch_with_cache` (`core.py` lines 183-223),
reached once the cache is known stale under the lock: on 429 compute the
doubled backoff from the remaining window, persist it, and fall back to
stale cache, raising only when there is none; on a request failure fall
back to stale cache or re-raise; on success persist the payload and clear
the backoff file. -/
def fetch_network {P : Type} (st : CacheState P) (now : ℚ) (net : FetchResult P)
    (jitter : ℚ) : FetchOutcome P :=
  match net with
  | .success data =>
      { result := .payload data
        final := { cache := some data, mtime := now, backoffUntil := 0 }
        usedNetwork := true }
  | .rateLimited =>
      let current_backoff : ℚ :=
        if st.backoffUntil ≠ 0 ∧ now < st.backoffUntil then st.backoffUntil - now else 0
      let delay : ℚ :=
        if current_backoff ≤ 0 then BACKOFF_INITIAL_SECONDS
        else min BACKOFF_MAX_SECONDS (current_backoff * 2)
      let total_delay := delay + jitter
      let st' := { st with backoffUntil := now + total_delay }
      match st.cache with
      | some cached => { result := .payload cached, final := st', usedNetwork := true }
      | none => { result := .err .rateLimited, final := st', usedNetwork := true }
  | .networkError =>
      match st.cache with
      | some cached => { result := .payload cached, final := st, usedNetwork := true }
      | none => { result := .err .networkError, final := st, usedNetwork := true }

/-- The double-checked freshness test of `_fetch_with_cache` performed
after acquiring the file lock (`core.py` lines 175-181); in this
single-caller model `now` and the mtime are the ones read before. -/
def fetch_locked {P : Type} (st : CacheState P) (now ttl : ℚ) (net : FetchResult P)
    (jitter : ℚ) : FetchOutcome P :=
  if now - st.mtime < ttl then
    match st.cache with
    | some cached => { result := .payload cached, final := st, usedNetwork := false }
    | none => fetch_network st now net jitter
  else fetch_network st now net jitter

/-- The pre-lock freshness test of `_fetch_with_cache` (`core.py`
lines 165-170). -/
def fetch_fresh_check {P : Type} (st : CacheState P) (now ttl : ℚ) (net : FetchResult P)
    (jitter : ℚ) : FetchOutcome P :=
  if now - st.mtime < ttl then
    match st.cache with
    | some cached => { result := .payload cached, final := st, usedNetwork := false }
    | none => fetch_locked st now ttl net jitter
  else fetch_locked st now ttl net jitter

/-- `_fetch_with_cache(url, key, ttl)` from `core.py` lines 143-223, for
one key. `net` is what the upstream would answer if asked; `jitter` is
the value `random.uniform(0, delay * 0.2)` would produce on the 429 path.
Entry point: honour an active backoff window by serving any cached
payload without a network call (with no cache, sleep briefly and proceed
anyway), then run the freshness checks and, if still stale, the fetch. -/
def fetch_with_cache {P : Type} (st : CacheState P) (now ttl : ℚ) (net : FetchResult P)
    (jitter : ℚ) : FetchOutcome P :=
  if st.backoffUntil ≠ 0 ∧ now < st.backoffUntil then
    match st.cache with
    | some cached => { result := .payload cached, final := st, usedNetwork := false }
    | none => fetch_fresh_check st now ttl net jitter
  else fetch_fresh_check st now ttl net jitter

/-- One entry of a room's `players` array, with the fields `core.py` and
`notifier.py` read. `none` stands for an absent key (or JSON null). -/
structure Player where
  vr : Option ℤ
  name : Option String
  friendCode : Option String
  isOpenHost : Bool
deriving DecidableEq, Repr

/-- A raw room object from the `roomstatus` payload, with the fields the
programs read. -/
structure RawRoom where
  id : Option String
  players : List Player
  isJoinable : Bool
  suspend : Bool
  rk : Option String
  roomType : Option String
  type : Option String
deriving DecidableEq, Repr

/-- One entry of the `open_hosts` list built by `get_room_info`. -/
structure OpenHost where
  name : String
  vr : ℤ
  fc : String
deriving DecidableEq, Repr

/-- The normalized snapshot `get_room_info` returns. -/
structure RoomInfo where
  id : Option String
  avg_vr : ℚ
  player_count : ℕ
  players : List String
  open_hosts : List OpenHost
  is_joinable : Bool
  is_suspended : Bool
  room_type : String
  room_label : String
deriving DecidableEq, Repr

/-- Insert into a list sorted by rating descending, before the first
strictly smaller rating — keeping the insertion stable. -/
def insertByVrDesc (a : OpenHost) : List OpenHost → List OpenHost
  | [] => [a]
  | b :: rest => if b.vr ≤ a.vr then a :: b :: rest else b :: insertByVrDesc a rest

/-- The stable descending sort by rating that
`open_hosts.sort(key=lambda x: x["vr"] or 0, reverse=True)` performs. -/
def sortByVrDesc : List OpenHost → List OpenHost
  | [] => []
  | a :: rest => insertByVrDesc a (sortByVrDesc rest)

/-- `get_room_info(room)` from `core.py` lines 232-260: average rating
over the ratings actually present (0 when none), full player count,
open-host list sorted by rating descending (missing rating as 0), and the
pass-through flags and labels. -/
def get_room_info (room : RawRoom) : RoomInfo :=
  let players := room.players
  let vr_values : List ℤ := players.filterMap (·.vr)
  let avg_vr : ℚ :=
    if vr_values ≠ [] then (vr_values.sum : ℚ) / (vr_values.length : ℚ) else 0
  let open_hosts : List OpenHost :=
    players.filterMap (fun p =>
      if p.isOpenHost then
        some { name := p.name.getD "Unknown", vr := p.vr.getD 0, fc := p.friendCode.getD "" }
      else none)
  let open_hosts := sortByVrDesc open_hosts
  { id := room.id
    avg_vr := avg_vr
    player_count := players.length
    players := players.map (fun p => p.name.getD "Unknown")
    open_hosts := open_hosts
    is_joinable := room.isJoinable
    is_suspended := room.suspend
    room_type := room.rk.getD ""
    room_label := room.roomType.getD "" }

/-- `is_retro_tracks(room_info)` from `core.py` lines 263-268. -/
def is_retro_tracks (info : RoomInfo) : Bool :=
  let label := info.room_label.trim.toLower
  if label ≠ "" then label == "retro tracks" else false

/-- Lookup in an insertion-ordered dictionary modelled as an association
list with unique keys (a Python `dict`). -/
def dictGet {α β : Type} [DecidableEq α] : List (α × β) → α → Option β
  | [], _ => none
  | (k', v') :: rest, k => if k = k' then some v' else dictGet rest k

/-- `d[k] = v` on a Python `dict`: update the existing entry in place, or
append a new one at the end. -/
def dictSet {α β : Type} [DecidableEq α] : List (α × β) → α → β → List (α × β)
  | [], k, v => [(k, v)]
  | (k', v') :: rest, k, v =>
      if k = k' then (k, v) :: rest else (k', v') :: dictSet rest k v

/-- `del d[k]` on a Python `dict`: drop the entry with that key. -/
def dictDel {α β : Type} [DecidableEq α] : List (α × β) → α → List (α × β)
  | [], _ => []
  | (k', v') :: rest, k => if k = k' then rest else (k', v') :: dictDel rest k

/-- The configuration values `notifier.py` imports from `config.py`.
`WATCHLIST` is the friend-code → display-name mapping. -/
structure Config where
  VR_THRESHOLD : ℚ
  VR_GRACE : ℚ
  RETRO_TRACKS_ONLY : Bool
  NOTIFY_NEW_ROOM : Bool
  NOTIFY_BECAME_JOINABLE : Bool
  WATCHLIST_NOTIFY : Bool
  WATCHLIST_FRIEND_CODES : List String
  WATCHLIST : List (String × String)
deriving DecidableEq, Repr

/-- One entry of `tracked`: `{"above_threshold": …, "player_count": …,
"notified": …}` from `notifier.py` lines 97-101. -/
structure TrackEntry where
  above_threshold : Bool
  player_count : ℕ
  notified : Bool
deriving DecidableEq, Repr

/-- The mutable state of the notifier loop: the `tracked` dict and the
`watchlist_seen` dict (room id → set of already-announced friend codes).
Room ids are `Option String` because `room.get("id")` can be absent. -/
structure NotifierState where
  tracked : List (Option String × TrackEntry)
  watchlist_seen : List (Option String × Finset String)
deriving DecidableEq

/-- A matched watchlist player as `notifier.py` builds it: `dict(p)` plus
the optional `nickname` override. -/
structure WatchPlayer where
  player : Player
  nickname : Option String
deriving DecidableEq, Repr

/-- The notifications `notifier.py` can send for one room. -/
inductive Event where
  | newHighRatingRoom (info : RoomInfo)
  | becameJoinable (info : RoomInfo)
  | watchlistMatch (info : RoomInfo) (matched : List WatchPlayer)
deriving DecidableEq, Repr

/-- The combined watchlist identifier set
`set(WATCHLIST_FRIEND_CODES) | set(WATCHLIST.keys())`
(`notifier.py` line 124). -/
def wlSet (cfg : Config) : Finset String :=
  cfg.WATCHLIST_FRIEND_CODES.toFinset ∪ (cfg.WATCHLIST.map Prod.fst).toFinset

/-- The watchlist block of the notifier loop (`notifier.py` lines
121-138): collect the room's players whose friend code is configured,
announce the ones not yet recorded for this room id, and record them. -/
def watchlist_step (cfg : Config) (room : RawRoom) (info : RoomInfo)
    (seen : List (Option String × Finset String)) :
    List (Option String × Finset String) × List Event :=
  if cfg.WATCHLIST_NOTIFY ∧ (cfg.WATCHLIST ≠ [] ∨ cfg.WATCHLIST_FRIEND_CODES ≠ []) then
    let wl_map := cfg.WATCHLIST
    let matched : List WatchPlayer := room.players.filterMap (fun p =>
      match p.friendCode with
      | some fc =>
          if fc ≠ "" ∧ fc ∈ wlSet cfg then some { player := p, nickname := wl_map.lookup fc }
          else none
      | none => none)
    if matched ≠ [] then
      let rid := info.id
      let already : Finset String := (dictGet seen rid).getD ∅
      let new_codes : Finset String :=
        (matched.filterMap (fun m => m.player.friendCode)).toFinset \ already
      if new_codes ≠ ∅ then
        (dictSet seen rid (already ∪ new_codes),
         [Event.watchlistMatch info (matched.filter (fun m =>
            match m.player.friendCode with
            | some fc => decide (fc ∈ new_codes)
            | none => false))])
      else (seen, [])
    else (seen, [])
  else (seen, [])

/-- The room state-tracking block of the notifier loop (`notifier.py`
lines 140-178): track a new room at or above the threshold (announcing
it), drop a tracked room below the grace bound, announce a re-crossing of
the threshold, and announce a tracked room going from 12 players to
fewer; player count and threshold flag are updated each cycle. -/
def tracker_step (cfg : Config) (info : RoomInfo)
    (tracked : List (Option String × TrackEntry)) :
    List (Option String × TrackEntry) × List Event :=
  let avg_vr := info.avg_vr
  let player_count := info.player_count
  let rid := info.id
  match dictGet tracked rid with
  | none =>
      if cfg.VR_THRESHOLD ≤ avg_vr then
        (dictSet tracked rid
          { above_threshold := true, player_count := player_count, notified := true },
         if cfg.NOTIFY_NEW_ROOM then [Event.newHighRatingRoom info] else [])
      else (tracked, [])
  | some prev =>
      if avg_vr < cfg.VR_GRACE then (dictDel tracked rid, [])
      else
        let recross := cfg.NOTIFY_NEW_ROOM = true ∧ prev.above_threshold = false ∧
          cfg.VR_THRESHOLD ≤ avg_vr
        let ev1 : List Event := if recross then [Event.newHighRatingRoom info] else []
        let notified' := if recross then true else prev.notified
        let above' := decide (cfg.VR_THRESHOLD ≤ avg_vr)
        let joinable := cfg.NOTIFY_BECAME_JOINABLE = true ∧ prev.player_count = 12 ∧
          player_count < 12
        let ev2 : List Event := if joinable then [Event.becameJoinable info] else []
        (dictSet tracked rid
          { above_threshold := above', player_count := player_count, notified := notified' },
         ev1 ++ ev2)

/-- The per-room body of the notifier loop (`notifier.py` lines 110-178):
skip private rooms, apply the Retro Tracks filter, then run the watchlist
block and the tracking block. -/
def process_room (cfg : Config) (room : RawRoom) (st : NotifierState) :
    NotifierState × List Event :=
  if room.type = some "private" then (st, [])
  else
    let info := get_room_info room
    if cfg.RETRO_TRACKS_ONLY = true ∧ is_retro_tracks info = false then (st, [])
    else
      let ws := watchlist_step cfg room info st.watchlist_seen
      let ts := tracker_step cfg info st.tracked
      ({ tracked := ts.1, watchlist_seen := ws.1 }, ws.2 ++ ts.2)

/-- The id set of rooms still present in the feed, as the cleanup pass
computes it (`notifier.py` lines 181-186): non-private rooms passing the
Retro Tracks filter. -/
def currentIds (cfg : Config) (rooms : List RawRoom) : Finset (Option String) :=
  (rooms.filterMap (fun room =>
    if room.type ≠ some "private" then
      let info := get_room_info room
      if cfg.RETRO_TRACKS_ONLY = false ∨ is_retro_tracks info = true then some info.id
      else none
    else none)).toFinset

/-- The cleanup pass (`notifier.py` lines 180-192): drop tracked entries
for rooms no longer in the feed, and for exactly those dropped tracked
ids also drop the watchlist-seen memory. -/
def cleanup (cfg : Config) (rooms : List RawRoom) (st : NotifierState) : NotifierState :=
  let ids := currentIds cfg rooms
  let trackedKeys := st.tracked.map Prod.fst
  { tracked := st.tracked.filter (fun e => decide (e.1 ∈ ids))
    watchlist_seen := st.watchlist_seen.filter (fun e =>
      !(decide (e.1 ∈ trackedKeys) && !(decide (e.1 ∈ ids)))) }

/-- An element of the decoded `rooms` array: a well-formed room object,
or a malformed element on which the first attribute access raises. -/
inductive Roomish where
  | ok (room : RawRoom)
  | malformed
deriving DecidableEq, Repr

/-- Outcome of one poll cycle: the notifier state afterwards, the events
sent (in order), and whether the cycle's body raised (the loop's
`except` clause catches, prints, and continues). -/
structure CycleOutcome where
  state : NotifierState
  events : List Event
  errored : Bool
deriving DecidableEq

/-- The `for room in rooms` loop of one cycle: process rooms in order,
stopping at a malformed element exactly where the exception leaves the
mutated state and the notifications already sent. -/
def run_loop (cfg : Config) : List Roomish → NotifierState → List Event → CycleOutcome
  | [], st, evs => { state := st, events := evs, errored := false }
  | .malformed :: _, st, evs => { state := st, events := evs, errored := true }
  | .ok room :: rest, st, evs =>
      let pr := process_room cfg room st
      run_loop cfg rest pr.1 (evs ++ pr.2)

/-- Keep the well-formed rooms of a decoded array. -/
def okRooms : List Roomish → List RawRoom :=
  List.filterMap (fun r => match r with | .ok room => some room | .malformed => none)

/-- One full cycle body over an already-fetched rooms array: the room
loop, then (only if the loop completed) the cleanup pass. -/
def run_cycle_exc (cfg : Config) (rooms : List Roomish) (st : NotifierState) : CycleOutcome :=
  let lp := run_loop cfg rooms st []
  if lp.errored then lp
  else { lp with state := cleanup cfg (okRooms rooms) lp.state }

/-- One cycle on a well-formed rooms array. -/
def run_cycle (cfg : Config) (rooms : List RawRoom) (st : NotifierState) : CycleOutcome :=
  run_cycle_exc cfg (rooms.map .ok) st

/-- One poll cycle including the fetch: when `fetch_rooms` itself raises
(`none`), the `except` clause fires before any room is processed. -/
def poll_cycle (cfg : Config) (fetched : Option (List Roomish)) (st : NotifierState) :
    CycleOutcome :=
  match fetched with
  | none => { state := st, events := [], errored := true }
  | some rooms => run_cycle_exc cfg rooms st

/-- Drive several cycles, collecting each cycle's events. -/
def run_cycles (cfg : Config) : List (List RawRoom) → NotifierState →
    NotifierState × List (List Event)
  | [], st => (st, [])
  | rooms :: rest, st =>
      let c := run_cycle cfg rooms st
      let r := run_cycles cfg rest c.state
      (r.1, c.events :: r.2)

/-- `dictGet` finds the value just written by `dictSet`. -/
theorem dictGet_dictSet_self {α β : Type} [DecidableEq α] (l : List (α × β)) (k : α) (v : β) :
    dictGet (dictSet l k v) k = some v := by
  induction l with
  | nil => simp [dictGet, dictSet]
  | cons e rest ih =>
      obtain ⟨k', v'⟩ := e
      by_cases h : k = k'
      · simp [dictSet, h, dictGet]
      · simp [dictSet, h, dictGet, ih]

/-- A key all of whose entries a filter rejects is absent afterwards. -/
theorem dictGet_filter_none {α β : Type} [DecidableEq α] (l : List (α × β))
    (p : α × β → Bool) (k : α) (h : ∀ v, p (k, v) = false) :
    dictGet (l.filter p) k = none := by
  induction l with
  | nil => simp [dictGet]
  | cons e rest ih =>
      obtain ⟨k', v'⟩ := e
      by_cases hk : k = k'
      · subst hk
        simp [List.filter, h v', dictGet, ih]
      · by_cases hp : p (k', v') = true
        · simp [List.filter, hp, dictGet, hk, ih]
        · simp only [List.filter, Bool.not_eq_true] at hp ⊢
          simp [hp, ih]

/-- A player record holding only a rating and a friend code. -/
def mkPlayer (vr : Option ℤ) (fc : Option String) : Player :=
  { vr := vr, name := some "P", friendCode := fc, isOpenHost := false }

/-- A public room with the given id, players and category label. -/
def mkRoom (rid : String) (ps : List Player) (label : Option String) : RawRoom :=
  { id := some rid, players := ps, isJoinable := true, suspend := false,
    rk := none, roomType := label, type := some "public" }

/-- Tracker scenario configuration: notify threshold 35000, grace 30000,
no category filter, all notifications on, watchlist off. -/
def trackerCfg : Config :=
  { VR_THRESHOLD := 35000, VR_GRACE := 30000, RETRO_TRACKS_ONLY := false,
    NOTIFY_NEW_ROOM := true, NOTIFY_BECAME_JOINABLE := true,
    WATCHLIST_NOTIFY := false, WATCHLIST_FRIEND_CODES := [], WATCHLIST := [] }

/-- Watchlist scenario configuration: one watched friend code, no
category filter. -/
def watchCfg : Config :=
  { VR_THRESHOLD := 35000, VR_GRACE := 30000, RETRO_TRACKS_ONLY := false,
    NOTIFY_NEW_ROOM := true, NOTIFY_BECAME_JOINABLE := true,
    WATCHLIST_NOTIFY := true, WATCHLIST_FRIEND_CODES := ["1111-1111-1111"],
    WATCHLIST := [] }

/-- `watchCfg` with the Retro Tracks category filter switched on. -/
def retroWatchCfg : Config := { watchCfg with RETRO_TRACKS_ONLY := true }

/-- A room whose single player carries the given rating. -/
def roomAvg (v : ℤ) : RawRoom := mkRoom "r1" [mkPlayer (some v) none] none

/-- A room with `n` players all at the given rating. -/
def roomWith (n : ℕ) (v : ℤ) : RawRoom :=
  mkRoom "r1" ((List.range n).map (fun _ => mkPlayer (some v) none)) none

/-- A low-rating, non-Retro-Tracks room holding the watched player. -/
def regularWatchRoom : RawRoom :=
  mkRoom "r1" [mkPlayer (some 100) (some "1111-1111-1111")] (some "Regular Tracks")

/-- A low-rating unlabeled room holding the watched player. -/
def lowWatchRoom : RawRoom :=
  mkRoom "r1" [mkPlayer (some 100) (some "1111-1111-1111")] none

/-- A high-rating room `rA` holding the watched player. -/
def highWatchRoomA : RawRoom :=
  mkRoom "rA" [mkPlayer (some 40000) (some "1111-1111-1111")] none

/-- A high-rating room `rB` holding the watched player. -/
def highWatchRoomB : RawRoom :=
  mkRoom "rB" [mkPlayer (some 40000) (some "1111-1111-1111")] none

/-- Recognize a `NewHighRatingRoom` notification. -/
def isNewHighEvent : Event → Bool
  | .newHighRatingRoom _ => true
  | _ => false

/-- Recognize a `BecameJoinable` notification. -/
def isJoinEvent : Event → Bool
  | .becameJoinable _ => true
  | _ => false

/-- Recognize a `WatchlistMatch` notification. -/
def isWatchEvent : Event → Bool
  | .watchlistMatch _ _ => true
  | _ => false

/-- C2: `get_room_info` averages only the ratings actually present: a
player with no rating changes neither numerator nor denominator (dropping
such a player anywhere in the list leaves the average unchanged), the
average is 0 when no player has a rating, and ratings
`[5000, missing, 7000]` average to 6000. -/
theorem get_room_info_avg_excludes_missing (room : RawRoom) (l1 l2 : List Player)
    (p : Player) :
    (p.vr = none →
      (get_room_info { room with players := l1 ++ p :: l2 }).avg_vr =
        (get_room_info { room with players := l1 ++ l2 }).avg_vr) ∧
    ((∀ q ∈ room.players, q.vr = none) → (get_room_info room).avg_vr = 0) ∧
    (get_room_info (mkRoom "r1"
        [mkPlayer (some 5000) none, mkPlayer none none, mkPlayer (some 7000) none]
        none)).avg_vr = 6000 := by
  refine ⟨fun hnone => ?_, fun hall => ?_, by with_unfolding_all rfl⟩
  · simp [get_room_info, List.filterMap_append, List.filterMap_cons, hnone]
  · have : room.players.filterMap Player.vr = [] := by
      rw [List.filterMap_eq_nil_iff]
      intro a ha
      exact hall a ha
    simp [get_room_info, this]

/-- Witness for C2: dropping the rating-less middle player of the three
sample players does not change the computed average. -/
theorem get_room_info_avg_excludes_missing_witness :
    (get_room_info { (mkRoom "x" [] none) with players :=
        [mkPlayer (some 5000) none] ++ mkPlayer none none :: [mkPlayer (some 7000) none] }).avg_vr =
      (get_room_info { (mkRoom "x" [] none) with players :=
        [mkPlayer (some 5000) none] ++ [mkPlayer (some 7000) none] }).avg_vr :=
  (get_room_info_avg_excludes_missing (mkRoom "x" [] none)
    [mkPlayer (some 5000) none] [mkPlayer (some 7000) none] (mkPlayer none none)).1 rfl

/-- C10: the snapshot's `player_count` is the length of the full player
list, rating-less players included; a room of two rating-less players
yields average 0 together with player count 2. -/
theorem get_room_info_player_count_full (room : RawRoom) :
    (get_room_info room).player_count = room.players.length ∧
    (get_room_info (mkRoom "r1" [mkPlayer none none, mkPlayer none none] none)).avg_vr = 0 ∧
    (get_room_info (mkRoom "r1" [mkPlayer none none, mkPlayer none none] none)).player_count
      = 2 := by
  refine ⟨by simp [get_room_info], by simp [get_room_info, mkRoom, mkPlayer], by decide⟩

/-- C5: with threshold 35000 and grace 30000, a room first seen at
average 36000 raises `NewHighRatingRoom` once and becomes tracked;
staying at 36000 raises nothing; dropping to 32000 keeps it tracked with
no event; dropping to 29000 deletes the tracking entry with no event;
rising back to 36000 raises `NewHighRatingRoom` again. -/
theorem tracker_hysteresis_trace :
    ((run_cycles trackerCfg [[roomAvg 36000], [roomAvg 36000], [roomAvg 32000],
        [roomAvg 29000], [roomAvg 36000]] ⟨[], []⟩).2.map
          (fun evs => evs.countP isNewHighEvent) = [1, 0, 0, 0, 1]) ∧
    ((run_cycles trackerCfg [[roomAvg 36000], [roomAvg 36000], [roomAvg 32000],
        [roomAvg 29000], [roomAvg 36000]] ⟨[], []⟩).2.map List.length = [1, 0, 0, 0, 1]) ∧
    ((run_cycles trackerCfg [[roomAvg 36000]] ⟨[], []⟩).1.tracked.length = 1) ∧
    ((run_cycles trackerCfg [[roomAvg 36000], [roomAvg 36000], [roomAvg 32000]]
        ⟨[], []⟩).1.tracked.length = 1) ∧
    ((run_cycles trackerCfg [[roomAvg 36000], [roomAvg 36000], [roomAvg 32000],
        [roomAvg 29000]] ⟨[], []⟩).1.tracked = []) := by
  refine ⟨?_, ?_, ?_, ?_, ?_⟩ <;> with_unfolding_all rfl

/-- C1: the cached fetch raises if and only if no cached payload exists
(of any age) and the live fetch itself fails; with any cached payload
present, a rate-limit response or request failure is absorbed and the
cached payload is returned. -/
theorem fetch_with_cache_error_iff_no_cache {P : Type} (st : CacheState P) (now ttl : ℚ)
    (net : FetchResult P) (j : ℚ) :
    ((∃ e, (fetch_with_cache st now ttl net j).result = .err e) ↔
      (st.cache = none ∧ ∀ p, net ≠ .success p)) ∧
    (∀ c, st.cache = some c → (∀ p, net ≠ .success p) →
      (fetch_with_cache st now ttl net j).result = .payload c) := by
  obtain ⟨cache, mtime, bu⟩ := st
  cases cache <;> cases net <;>
    simp only [fetch_with_cache, fetch_fresh_check, fetch_locked, fetch_network] <;>
    split_ifs <;>
    simp_all

/-- Witness for C1: with a cached payload on disk and the upstream
failing, the cached payload is served. -/
theorem fetch_with_cache_error_iff_no_cache_witness :
    (fetch_with_cache ({ cache := some 5, mtime := 0, backoffUntil := 0 } : CacheState ℤ)
      100 8 .networkError 0).result = .payload 5 :=
  (fetch_with_cache_error_iff_no_cache
    ({ cache := some 5, mtime := 0, backoffUntil := 0 } : CacheState ℤ)
    100 8 .networkError 0).2 5 rfl (fun p h => by cases h)

/-- C7: with a cached entry younger than the TTL, or with a recorded
backoff window still open and any cached payload, the cached payload is
returned and the fetch function is never invoked. -/
theorem fetch_with_cache_no_network_when_fresh_or_backoff {P : Type} (st : CacheState P)
    (now ttl j : ℚ) (net : FetchResult P) (c : P) (hc : st.cache = some c)
    (h : now - st.mtime < ttl ∨ (st.backoffUntil ≠ 0 ∧ now < st.backoffUntil)) :
    fetch_with_cache st now ttl net j =
      { result := .payload c, final := st, usedNetwork := false } := by
  rcases h with hfresh | hback
  · by_cases hb : st.backoffUntil ≠ 0 ∧ now < st.backoffUntil
    · simp [fetch_with_cache, hb, hc]
    · simp [fetch_with_cache, hb, fetch_fresh_check, hfresh, hc]
  · simp [fetch_with_cache, hback, hc]

/-- Witness for C7: a fresh cache entry is served with no network call,
and so is a stale one inside an open backoff window. -/
theorem fetch_with_cache_no_network_witness :
    (fetch_with_cache ({ cache := some 7, mtime := 98, backoffUntil := 0 } : CacheState ℤ)
        100 8 .networkError 0 =
      { result := .payload 7,
        final := { cache := some 7, mtime := 98, backoffUntil := 0 },
        usedNetwork := false }) ∧
    (fetch_with_cache ({ cache := some 7, mtime := 0, backoffUntil := 101 } : CacheState ℤ)
        100 8 .networkError 0 =
      { result := .payload 7,
        final := { cache := some 7, mtime := 0, backoffUntil := 101 },
        usedNetwork := false }) :=
  ⟨fetch_with_cache_no_network_when_fresh_or_backoff _ 100 8 0 .networkError 7 rfl
      (Or.inl (by norm_num)),
   fetch_with_cache_no_network_when_fresh_or_backoff _ 100 8 0 .networkError 7 rfl
      (Or.inr ⟨by norm_num, by norm_num⟩)⟩

/-- Counterexample to C6: with 2 time units of backoff remaining, no
cache and a 429 response, the code persists `backoff-until = now + 4`
(doubling 2 without the claimed `max` with the initial backoff of 10),
not `now + min(120, max(10, 2*2)) = now + 10`; the computed delay 4 is
below the initial backoff, contradicting the claim's lower bound. -/
theorem backoff_delay_counterexample :
    (fetch_with_cache ({ cache := none, mtime := 0, backoffUntil := 102 } : CacheState ℤ)
        100 8 .rateLimited 0).final.backoffUntil = 104 ∧
    (104 : ℚ) ≠ 100 + min 120 (max 10 ((102 - 100) * 2)) ∧
    (104 : ℚ) - 100 < BACKOFF_INITIAL_SECONDS := by
  refine ⟨by with_unfolding_all rfl, by norm_num, by norm_num [BACKOFF_INITIAL_SECONDS]⟩

/-- Modelled from the amended claim: the delay the code computes on a
429 — the initial backoff of 10 when no backoff remains, else the
previous remaining backoff doubled and capped at 120 (with no lower
bound, so it can fall below 10 when the remaining window was under 5). -/
def amendedBackoffDelay (previousRemaining : ℚ) : ℚ :=
  if previousRemaining ≤ 0 then BACKOFF_INITIAL_SECONDS
  else min BACKOFF_MAX_SECONDS (previousRemaining * 2)

/-- C6 (amended): whenever the cache routine reaches the network and is
rate-limited, it persists `backoff-until = now + delay + jitter` with
`delay = amendedBackoffDelay(previousRemaining)`; the source draws the
jitter uniformly from `[0, delay * 0.2]`, so it is at most 20% of the
delay. -/
theorem backoff_delay_amended {P : Type} (st : CacheState P) (now ttl j : ℚ)
    (hstale : ttl ≤ now - st.mtime)
    (hreach : st.cache = none ∨ st.backoffUntil = 0 ∨ st.backoffUntil ≤ now) :
    (fetch_with_cache st now ttl .rateLimited j).final.backoffUntil =
      now + amendedBackoffDelay
        (if st.backoffUntil ≠ 0 ∧ now < st.backoffUntil then st.backoffUntil - now else 0)
      + j := by
  obtain ⟨cache, mtime, bu⟩ := st
  simp only at hstale hreach
  have hnf : ¬ (now - mtime < ttl) := not_lt.mpr hstale
  by_cases hb : bu ≠ 0 ∧ now < bu
  · have hcache : cache = none := by
      rcases hreach with h | h | h
      · exact h
      · exact absurd h hb.1
      · exact absurd hb.2 (not_lt.mpr h)
    subst hcache
    simp [fetch_with_cache, hb, fetch_fresh_check, fetch_locked, hnf, fetch_network,
      amendedBackoffDelay, add_assoc]
  · cases cache <;>
      simp [fetch_with_cache, hb, fetch_fresh_check, fetch_locked, hnf, fetch_network,
        amendedBackoffDelay, add_assoc]

/-- Witness for C6 (amended): at 2 units remaining, no cache and zero
jitter the persisted timestamp is `100 + amendedBackoffDelay 2 + 0`. -/
theorem backoff_delay_amended_witness :
    (fetch_with_cache ({ cache := none, mtime := 0, backoffUntil := 102 } : CacheState ℤ)
        100 8 .rateLimited 0).final.backoffUntil =
      100 + amendedBackoffDelay
        (if (102 : ℚ) ≠ 0 ∧ (100 : ℚ) < 102 then 102 - 100 else 0) + 0 :=
  backoff_delay_amended ({ cache := none, mtime := 0, backoffUntil := 102 } : CacheState ℤ)
    100 8 0 (by norm_num) (Or.inl rfl)

/-- C8: a tracked room recorded at the 12-player capacity that is next
observed with fewer than 12 players (while at or above the grace
threshold, with the toggle on) raises `BecameJoinable` exactly once for
the transition — no hypothesis relates the room's rating to the notify
threshold, so the event fires independently of any rating transition in
the same cycle — and the recorded count becomes the new (sub-12) count,
so that later cycles, whose recorded count is then not 12, raise no
further `BecameJoinable`. -/
theorem became_joinable_exactly_once (cfg : Config) (info : RoomInfo)
    (tracked : List (Option String × TrackEntry)) (prev : TrackEntry)
    (hget : dictGet tracked info.id = some prev)
    (hgrace : cfg.VR_GRACE ≤ info.avg_vr) :
    (prev.player_count = 12 → info.player_count < 12 →
      cfg.NOTIFY_BECAME_JOINABLE = true →
      ((tracker_step cfg info tracked).2.countP isJoinEvent = 1 ∧
       Event.becameJoinable info ∈ (tracker_step cfg info tracked).2 ∧
       ∃ e', dictGet (tracker_step cfg info tracked).1 info.id = some e' ∧
         e'.player_count = info.player_count)) ∧
    (prev.player_count ≠ 12 →
      (tracker_step cfg info tracked).2.countP isJoinEvent = 0) := by
  have hng : ¬ (info.avg_vr < cfg.VR_GRACE) := not_lt.mpr hgrace
  constructor
  · intro h12 hlt hnotify
    refine ⟨?_, ?_, ?_⟩
    · simp only [tracker_step, hget, hng, if_false]
      split_ifs <;>
        simp_all [List.countP_append, List.countP_cons, isJoinEvent]
    · simp only [tracker_step, hget, hng, if_false]
      split_ifs <;> simp_all
    · simp only [tracker_step, hget, hng, if_false]
      exact ⟨_, dictGet_dictSet_self _ _ _, rfl⟩
  · intro h12
    simp only [tracker_step, hget, hng, if_false]
    split_ifs <;>
      simp_all [List.countP_append, List.countP_cons, isJoinEvent]

/-- Witness for C8: a tracked room at 12 players seen at 9 players and
average 32000 (between grace 30000 and threshold 35000) raises
`BecameJoinable` once; at recorded count 9 it raises none. -/
theorem became_joinable_exactly_once_witness :
    ((tracker_step trackerCfg (get_room_info (roomWith 9 32000))
        [(some "r1", { above_threshold := true, player_count := 12, notified := true })]).2.countP
          isJoinEvent = 1) ∧
    ((tracker_step trackerCfg (get_room_info (roomWith 9 32000))
        [(some "r1", { above_threshold := true, player_count := 9, notified := true })]).2.countP
          isJoinEvent = 0) := by
  constructor
  · exact ((became_joinable_exactly_once trackerCfg (get_room_info (roomWith 9 32000))
      [(some "r1", { above_threshold := true, player_count := 12, notified := true })]
      { above_threshold := true, player_count := 12, notified := true }
      (by with_unfolding_all rfl)
      (by show (30000 : ℚ) ≤ (get_room_info (roomWith 9 32000)).avg_vr
          have : (get_room_info (roomWith 9 32000)).avg_vr = 32000 := by
            with_unfolding_all rfl
          rw [this]; norm_num)).1 rfl (by decide) rfl).1
  · exact (became_joinable_exactly_once trackerCfg (get_room_info (roomWith 9 32000))
      [(some "r1", { above_threshold := true, player_count := 9, notified := true })]
      { above_threshold := true, player_count := 9, notified := true }
      (by with_unfolding_all rfl)
      (by show (30000 : ℚ) ≤ (get_room_info (roomWith 9 32000)).avg_vr
          have : (get_room_info (roomWith 9 32000)).avg_vr = 32000 := by
            with_unfolding_all rfl
          rw [this]; norm_num)).2 (by norm_num)

/-- The watchlist block announces a configured, non-empty friend code
present in the room and not yet recorded for this room id, whatever the
room's rating. -/
theorem watchlist_step_announces (cfg : Config) (room : RawRoom) (info : RoomInfo)
    (seen : List (Option String × Finset String)) (p : Player) (fc : String)
    (hnotify : cfg.WATCHLIST_NOTIFY = true)
    (hp : p ∈ room.players) (hfc : p.friendCode = some fc) (hne : fc ≠ "")
    (hwl : fc ∈ wlSet cfg)
    (hseen : fc ∉ (dictGet seen info.id).getD ∅) :
    ∃ ms, (watchlist_step cfg room info seen).2 = [Event.watchlistMatch info ms] ∧
      ∃ m ∈ ms, m.player.friendCode = some fc := by
  have hguard : cfg.WATCHLIST ≠ [] ∨ cfg.WATCHLIST_FRIEND_CODES ≠ [] := by
    by_contra hcon
    push_neg at hcon
    rw [wlSet, hcon.1, hcon.2] at hwl
    simp at hwl
  have hm0 : ({ player := p, nickname := cfg.WATCHLIST.lookup fc } : WatchPlayer) ∈
      room.players.filterMap (fun q =>
        match q.friendCode with
        | some fc' =>
            if fc' ≠ "" ∧ fc' ∈ wlSet cfg then
              some { player := q, nickname := cfg.WATCHLIST.lookup fc' }
            else none
        | none => none) := by
    refine List.mem_filterMap.mpr ⟨p, hp, ?_⟩
    rw [hfc]
    simp [hne, hwl]
  have hfcmem : fc ∈ (room.players.filterMap (fun q =>
      match q.friendCode with
      | some fc' =>
          if fc' ≠ "" ∧ fc' ∈ wlSet cfg then
            (some { player := q, nickname := cfg.WATCHLIST.lookup fc' } : Option WatchPlayer)
          else none
      | none => none)).filterMap (fun m => m.player.friendCode) :=
    List.mem_filterMap.mpr ⟨_, hm0, hfc⟩
  have hnew : fc ∈ ((room.players.filterMap (fun q =>
      match q.friendCode with
      | some fc' =>
          if fc' ≠ "" ∧ fc' ∈ wlSet cfg then
            (some { player := q, nickname := cfg.WATCHLIST.lookup fc' } : Option WatchPlayer)
          else none
      | none => none)).filterMap (fun m => m.player.friendCode)).toFinset \
        ((dictGet seen info.id).getD ∅) :=
    Finset.mem_sdiff.mpr ⟨List.mem_toFinset.mpr hfcmem, hseen⟩
  simp only [watchlist_step]
  split_ifs with h1 h2 h3
  · refine ⟨_, rfl, ?_⟩
    refine ⟨{ player := p, nickname := cfg.WATCHLIST.lookup fc }, ?_, hfc⟩
    refine List.mem_filter.mpr ⟨hm0, ?_⟩
    have : ({ player := p, nickname := cfg.WATCHLIST.lookup fc } : WatchPlayer).player.friendCode
        = some fc := hfc
    rw [this]
    simpa using hnew
  · exact absurd (Finset.ne_empty_of_mem hnew) h3
  · exact absurd (List.ne_nil_of_mem hm0) h2
  · exact absurd ⟨hnotify, hguard⟩ h1

/-- C3 (amended): the notifier's watchlist matcher is independent of the
room's average rating — no rating hypothesis appears — but runs only for
non-private rooms that pass the category filter: when the Retro Tracks
filter is off, or the room's label matches, a configured identifier in
the room that is not yet recorded for that room id produces a
`WatchlistMatch`; with the filter on, rooms with a non-matching label are
skipped before the watchlist block (see the counterexample). -/
theorem watchlist_match_rating_independent (cfg : Config) (room : RawRoom) (p : Player)
    (fc : String) (st : NotifierState)
    (hpriv : room.type ≠ some "private")
    (hfilter : cfg.RETRO_TRACKS_ONLY = false ∨ is_retro_tracks (get_room_info room) = true)
    (hnotify : cfg.WATCHLIST_NOTIFY = true)
    (hp : p ∈ room.players) (hfc : p.friendCode = some fc) (hne : fc ≠ "")
    (hwl : fc ∈ wlSet cfg)
    (hseen : fc ∉ (dictGet st.watchlist_seen (get_room_info room).id).getD ∅) :
    ∃ ms, Event.watchlistMatch (get_room_info room) ms ∈ (process_room cfg room st).2 ∧
      ∃ m ∈ ms, m.player.friendCode = some fc := by
  obtain ⟨ms, hms, m, hm, hmfc⟩ :=
    watchlist_step_announces cfg room (get_room_info room) st.watchlist_seen p fc
      hnotify hp hfc hne hwl hseen
  refine ⟨ms, ?_, m, hm, hmfc⟩
  simp only [process_room]
  rw [if_neg hpriv, if_neg ?_]
  · rw [List.mem_append, hms]
    exact Or.inl (List.mem_singleton.mpr rfl)
  · rcases hfilter with h | h <;> simp [h]

/-- Witness for C3 (amended): the watched friend code inside a room of
average rating 100 — far below the notify threshold — is announced. -/
theorem watchlist_match_rating_independent_witness :
    ∃ ms, Event.watchlistMatch (get_room_info lowWatchRoom) ms ∈
        (process_room watchCfg lowWatchRoom ⟨[], []⟩).2 ∧
      ∃ m ∈ ms, m.player.friendCode = some "1111-1111-1111" :=
  watchlist_match_rating_independent watchCfg lowWatchRoom
    (mkPlayer (some 100) (some "1111-1111-1111")) "1111-1111-1111" ⟨[], []⟩
    (by decide) (Or.inl rfl) rfl (by decide) rfl (by decide) (by decide) (by decide)

/-- Counterexample to C3: with the Retro Tracks filter on, a non-private
room labelled `Regular Tracks` containing the watched friend code is
skipped before the watchlist block, so no `WatchlistMatch` (indeed no
event at all) is produced — the matcher is not independent of the
category filter. -/
theorem watchlist_skipped_by_category_filter :
    regularWatchRoom.type ≠ some "private" ∧
    (mkPlayer (some 100) (some "1111-1111-1111")) ∈ regularWatchRoom.players ∧
    "1111-1111-1111" ∈ wlSet retroWatchCfg ∧
    retroWatchCfg.WATCHLIST_NOTIFY = true ∧
    retroWatchCfg.RETRO_TRACKS_ONLY = true ∧
    (process_room retroWatchCfg regularWatchRoom ⟨[], []⟩).2 = [] := by
  refine ⟨by decide, by decide, by decide, rfl, rfl, by with_unfolding_all rfl⟩

/-- Counterexample to C4: with threshold 35000, a room of average 100 —
never tracked — containing the watched code announces in cycle 1; in
cycle 2 the room disappears from the feed, yet its announced-identifier
memory is NOT cleared (the cleanup only touches tracked ids); on
re-entry in cycle 3 no `WatchlistMatch` is produced, contradicting the
claimed clear-on-disappearance and re-announcement. -/
theorem watchlist_seen_persists_counterexample :
    ((run_cycles watchCfg [[lowWatchRoom], [], [lowWatchRoom]] ⟨[], []⟩).2.map
      (fun evs => evs.countP isWatchEvent) = [1, 0, 0]) ∧
    ((run_cycles watchCfg [[lowWatchRoom], []] ⟨[], []⟩).1.tracked = []) ∧
    ((run_cycles watchCfg [[lowWatchRoom], []] ⟨[], []⟩).1.watchlist_seen.length = 1) := by
  refine ⟨?_, ?_, ?_⟩ <;> with_unfolding_all rfl

/-- C4 (amended): a `WatchlistMatch` carries only identifiers not
already recorded as announced for that room id; the per-room announced
memory is cleared on disappearance from the feed only for rooms that are
currently tracked (the cleanup pass iterates tracked ids — for a room
never tracked the memory persists, see the counterexample); for a
tracked room, leaving the feed and re-entering re-announces, and the
same identifier in two rooms at once is announced once per room. -/
theorem watchlist_dedup_amended (cfg : Config) (room : RawRoom) (info : RoomInfo)
    (seen : List (Option String × Finset String)) (rooms : List RawRoom)
    (st : NotifierState) (rid : Option String) :
    (∀ info' ms, Event.watchlistMatch info' ms ∈ (watchlist_step cfg room info seen).2 →
      ∀ m ∈ ms, ∃ fc, m.player.friendCode = some fc ∧
        fc ∉ (dictGet seen info.id).getD ∅) ∧
    (rid ∈ st.tracked.map Prod.fst → rid ∉ currentIds cfg rooms →
      dictGet (cleanup cfg rooms st).watchlist_seen rid = none) ∧
    ((run_cycles watchCfg [[highWatchRoomA], [], [highWatchRoomA]] ⟨[], []⟩).2.map
      (fun evs => evs.countP isWatchEvent) = [1, 0, 1]) ∧
    ((run_cycles watchCfg [[highWatchRoomA, highWatchRoomB]] ⟨[], []⟩).2.map
      (fun evs => evs.countP isWatchEvent) = [2]) := by
  refine ⟨?_, ?_, by with_unfolding_all rfl, by with_unfolding_all rfl⟩
  · simp only [watchlist_step]
    split_ifs with h1 h2 h3
    · intro info' ms hms m hm
      simp only [List.mem_singleton, Event.watchlistMatch.injEq] at hms
      obtain ⟨hinfo, hmseq⟩ := hms
      subst hmseq
      obtain ⟨hmem, hpred⟩ := List.mem_filter.mp hm
      rcases hmf : m.player.friendCode with _ | fc
      · rw [hmf] at hpred
        simp at hpred
      · rw [hmf] at hpred
        simp only [decide_eq_true_eq] at hpred
        exact ⟨fc, rfl, (Finset.mem_sdiff.mp hpred).2⟩
    · intro info' ms hms
      simp at hms
    · intro info' ms hms
      simp at hms
    · intro info' ms hms
      simp at hms
  · intro htr hid
    simp only [cleanup]
    apply dictGet_filter_none
    intro v
    simp [htr, hid]

/-- Witness for C4 (amended): a tracked id absent from an empty feed has
its announced memory removed by the cleanup pass. -/
theorem watchlist_dedup_amended_witness :
    dictGet (cleanup watchCfg []
      { tracked := [(some "rA", { above_threshold := true, player_count := 1, notified := true })],
        watchlist_seen := [(some "rA", {"1111-1111-1111"})] }).watchlist_seen (some "rA")
      = none :=
  (watchlist_dedup_amended watchCfg lowWatchRoom (get_room_info lowWatchRoom) [] []
    { tracked := [(some "rA", { above_threshold := true, player_count := 1, notified := true })],
      watchlist_seen := [(some "rA", {"1111-1111-1111"})] }
    (some "rA")).2.1 (by decide) (by decide)

/-- The room loop of a cycle, folded over well-formed rooms only:
the state after processing them in order and the events sent. -/
def process_rooms (cfg : Config) : List RawRoom → NotifierState → NotifierState × List Event
  | [], st => (st, [])
  | room :: rest, st =>
      let pr := process_room cfg room st
      let r := process_rooms cfg rest pr.1
      (r.1, pr.2 ++ r.2)

/-- A room loop that hits a malformed element stops there, keeping the
state mutations and notifications of the rooms already processed. -/
theorem run_loop_stops_at_malformed (cfg : Config) (oks : List RawRoom)
    (rest : List Roomish) (st : NotifierState) (acc : List Event) :
    run_loop cfg (oks.map .ok ++ .malformed :: rest) st acc =
      { state := (process_rooms cfg oks st).1,
        events := acc ++ (process_rooms cfg oks st).2, errored := true } := by
  induction oks generalizing st acc with
  | nil => simp [run_loop, process_rooms]
  | cons r rs ih => simp [run_loop, process_rooms, ih]

/-- Counterexample to C9: a cycle whose rooms array holds a well-formed
high-rating room followed by a malformed element is caught as failed,
but the tracked-room map is NOT left as it was before the cycle — the
room processed before the failure was added (the loop mutates state in
place and the handler performs no rollback). -/
theorem failed_cycle_state_counterexample :
    ((run_cycle_exc trackerCfg [.ok (roomAvg 36000), .malformed] ⟨[], []⟩).errored = true) ∧
    ((run_cycle_exc trackerCfg [.ok (roomAvg 36000), .malformed] ⟨[], []⟩).state.tracked.length
      = 1) := by
  refine ⟨?_, ?_⟩ <;> with_unfolding_all rfl

/-- C9 (amended): a failing poll cycle is caught and flagged (the loop
continues with the next cycle); when the fetch itself fails, no room has
been processed and the state is exactly unchanged; when processing fails
at a malformed room, the state keeps exactly the mutations of the rooms
processed before the failure — it is not rolled back — and the cleanup
pass is skipped. -/
theorem failed_cycle_amended (cfg : Config) (oks : List RawRoom) (rest : List Roomish)
    (st : NotifierState) :
    (poll_cycle cfg none st = { state := st, events := [], errored := true }) ∧
    (run_cycle_exc cfg (oks.map .ok ++ .malformed :: rest) st =
      { state := (process_rooms cfg oks st).1,
        events := (process_rooms cfg oks st).2, errored := true }) := by
  refine ⟨rfl, ?_⟩
  simp [run_cycle_exc, run_loop_stops_at_malformed]
